import Mathlib

/-!
Shallow embedding of the HabitsGPT premium/IAP/auth layer.

The definitions below are translated from:
* `src/unnamed/part_001` — the `IAPService` class (RevenueCat + Capacitor wrapper);
* `src/src/contexts/PremiumContext.tsx` — `fetchPremiumStatus`;
* `src/src/pages/Auth.tsx` — `handleSubmit`.

JavaScript conventions are modelled explicitly: optional / possibly-absent
values are `Option`, the `a || b` operator is `jsOr` (with empty strings
falsy), thrown exceptions and rejected promises are the `Except.error`
branch, and JS `Date` parsing / ISO formatting is an abstract parameter
(`JsDateModel`), since the claims never depend on a particular calendar
interpretation.
-/

namespace HabitsGPT

/-- JS truthiness restricted to `string | undefined | null` values:
`undefined`, `null` and the empty string are falsy. -/
def jsTruthy : Option String → Bool
  | none => false
  | some s => !(s == "")

/-- JS `a || b` on `string | undefined` values: returns `a` when truthy,
otherwise `b` (even when `b` is itself falsy). -/
def jsOr (a b : Option String) : Option String :=
  if jsTruthy a then a else b

/-- JS `a || d` where `d` is a (truthy) string literal default. -/
def jsOrD (a : Option String) (d : String) : String :=
  match a with
  | some s => if s == "" then d else s
  | none => d

/-- Character-list substring search: does `pat` occur (contiguously) in
the list? The empty pattern occurs everywhere. -/
def charListContains (l pat : List Char) : Bool :=
  match l with
  | [] => pat.isEmpty
  | _ :: cs => List.isPrefixOf pat l || charListContains cs pat

/-- Substring test, modelling JS `String.prototype.includes`. -/
def containsSubstr (s pat : String) : Bool :=
  charListContains s.data pat.data

/-- ASCII lower-casing of a string, modelling JS
`String.prototype.toLowerCase` on the ASCII range. -/
def strToLower (s : String) : String :=
  ⟨s.data.map Char.toLower⟩

/-- Platform tag, from `part_001` line 21: `'apple' | 'google' | 'web'`. -/
inductive Platform
  | apple
  | google
  | web
deriving DecidableEq, Repr

/-- A JS error / promise-rejection value, with the fields the service
inspects: `message`, `code`, `errorCode`. -/
structure JsError where
  message : Option String
  code : Option String
  errorCode : Option String
deriving DecidableEq, Repr

deriving instance DecidableEq for Except

/-- A JS value that is either a number, a string, or undefined (used for the
dynamically typed `product.price` field). JS numbers are modelled as
rationals (finite doubles). -/
inductive JsVal
  | num (q : ℚ)
  | str (s : String)
  | undef
deriving DecidableEq, Repr

/-- JS truthiness on `JsVal`: `0`, `""` and `undefined` are falsy. -/
def JsVal.truthy : JsVal → Bool
  | .num q => !(q == 0)
  | .str s => !(s == "")
  | .undef => false

/-- JS `a || b` on dynamically typed values. -/
def jsOrV (a b : JsVal) : JsVal :=
  if a.truthy then a else b

/-- Lift an optional string into a `JsVal`. -/
def JsVal.ofOptStr : Option String → JsVal
  | none => .undef
  | some s => .str s

/-- JS `String(v)` applied to a chain result; `numToStr` is the JS number
formatting function, kept abstract. -/
def jsString (numToStr : ℚ → String) : JsVal → String
  | .num q => numToStr q
  | .str s => s
  | .undef => "undefined"

/-! ## IAPService state and configuration (`part_001` lines 70-145) -/

/-- Mutable fields of the `IAPService` singleton: `isNative`,
`currentPlatform`, `configured`, `appUserId`. -/
structure IAPState where
  isNative : Bool
  currentPlatform : Platform
  configured : Bool
  appUserId : Option String
deriving DecidableEq, Repr

/-- Build-time environment keys (`VITE_REVENUECAT_PUBLIC_*_KEY`). -/
structure KeyEnv where
  googleKey : Option String
  appleKey : Option String
deriving DecidableEq, Repr

/-- Translation of `getApiKey` (`part_001` lines 105-113). -/
def getApiKey (ke : KeyEnv) (s : IAPState) : Option String :=
  if s.currentPlatform = Platform.google then ke.googleKey
  else if s.currentPlatform = Platform.apple then ke.appleKey
  else none

/-- Environment for `ensureConfigured`: the outcome of the dynamic SDK
module load (`this.sdk()`) and of `Purchases.configure`. `setLogLevel` is
in a try/ignore block in the source and is not modelled. -/
structure CfgEnv where
  keys : KeyEnv
  sdkImport : Except JsError Unit
  configureResult : Except JsError Unit
deriving DecidableEq, Repr

/-- The error thrown by `ensureConfigured` when no API key is set
(`part_001` lines 124-128). -/
def missingKeyError (p : Platform) : JsError :=
  { message := some ("[IAP] Missing RevenueCat API key. Set VITE_REVENUECAT_PUBLIC_"
      ++ (if p = Platform.google then "GOOGLE" else "APPLE") ++ "_KEY in .env")
    code := none
    errorCode := none }

/-- Translation of `setAppUserId` (`part_001` lines 92-96): stores
`appUserId || undefined` and unconditionally clears `configured`. -/
def setAppUserId (appUserId : Option String) (s : IAPState) : IAPState :=
  { s with
    appUserId := if jsTruthy appUserId then appUserId else none
    configured := false }

/-- Translation of `ensureConfigured` (`part_001` lines 119-145). Returns
the updated state, or the thrown error. `configured` is set only after a
successful `configure` call. -/
def ensureConfigured (env : CfgEnv) (s : IAPState) : Except JsError IAPState :=
  if !s.isNative then .ok s
  else if s.configured then .ok s
  else
    let apiKey := getApiKey env.keys s
    if !(jsTruthy apiKey) then .error (missingKeyError s.currentPlatform)
    else
      match env.sdkImport with
      | .error e => .error e
      | .ok _ =>
        match env.configureResult with
        | .error e => .error e
        | .ok _ => .ok { s with configured := true }

/-! ## RevenueCat result shapes -/

/-- The fields of a RevenueCat package's `product` object that the service
reads. Absent fields are `none` / `.undef`. -/
structure RCProduct where
  identifier : Option String
  productIdentifier : Option String
  priceString : Option String
  localizedPriceString : Option String
  price : JsVal
  formattedPrice : Option String
  currencyCode : Option String
  currency : Option String
  priceAmount : Option ℚ
  priceAmountMicros : Option ℚ
  title : Option String
  name : Option String
  description : Option String
deriving DecidableEq, Repr

/-- A product object with every field absent (JS `{}`). -/
def RCProduct.empty : RCProduct :=
  ⟨none, none, none, none, .undef, none, none, none, none, none, none, none, none⟩

/-- A RevenueCat package: optional `product` object and optional own
`identifier`. -/
structure RCPackage where
  product : Option RCProduct
  identifier : Option String
deriving DecidableEq, Repr

/-- The product-id extraction chain
`p?.product?.identifier || p?.product?.productIdentifier || p?.identifier`
used by both `getProducts` and `purchase`. -/
def packagePid (p : RCPackage) : Option String :=
  jsOr (jsOr (p.product.bind RCProduct.identifier) (p.product.bind RCProduct.productIdentifier))
    p.identifier

/-- The `current` offering: optional list of available packages. -/
structure Offering where
  availablePackages : Option (List RCPackage)
deriving DecidableEq, Repr

/-- The object resolved by `Purchases.getOfferings()`. -/
structure OfferingsObj where
  current : Option Offering
deriving DecidableEq, Repr

/-- Resolve `offerings?.current?.availablePackages || []`. -/
def packagesOf (offerings : Option OfferingsObj) : List RCPackage :=
  ((offerings.bind OfferingsObj.current).bind Offering.availablePackages).getD []

/-! ## getProducts (`part_001` lines 151-203) -/

/-- The normalized product record exposed to the UI (`IAPProduct`). -/
structure IAPProduct where
  productId : String
  title : String
  description : String
  price : String
  priceAmount : ℚ
  currency : String
deriving DecidableEq, Repr

/-- Environment for `getProducts`. -/
structure ProductsEnv where
  cfg : CfgEnv
  offeringsResult : Except JsError (Option OfferingsObj)
deriving DecidableEq, Repr

/-- The `byProductId` map lookup: the map is populated with
`byProductId.set(pid, p)` for every package with a truthy pid, so a
lookup returns the **last** package whose pid equals the requested id. -/
def lookupPkg (pkgs : List RCPackage) (requestedId : String) : Option RCPackage :=
  (pkgs.filter (fun p => jsTruthy (packagePid p) && (packagePid p == some requestedId))).getLast?

/-- Normalization of one package into an `IAPProduct`
(`part_001` lines 172-199). `numToStr` abstracts JS `String(number)`. -/
def mkIAPProduct (numToStr : ℚ → String) (requestedId : String) (pkg : RCPackage) : IAPProduct :=
  let product := pkg.product.getD RCProduct.empty
  let price := jsOrV (JsVal.ofOptStr product.priceString)
    (jsOrV (JsVal.ofOptStr product.localizedPriceString)
      (jsOrV product.price (jsOrV (JsVal.ofOptStr product.formattedPrice) (JsVal.str ""))))
  let currency := jsOrD product.currencyCode (jsOrD product.currency "")
  let priceAmount : Option ℚ :=
    match product.price with
    | JsVal.num q => some q
    | _ =>
      match product.priceAmount with
      | some q => some q
      | none =>
        match product.priceAmountMicros with
        | some q => if q == 0 then none else some (q / 1000000)
        | none => none
  { productId := requestedId
    title := jsOrD product.title (jsOrD product.name "Premium")
    description := jsOrD product.description ""
    price := jsString numToStr price
    priceAmount := priceAmount.getD 0
    currency := currency }

/-- Translation of `getProducts` (`part_001` lines 151-203). On non-native
runtimes it returns `[]` immediately; on native runtimes `ensureConfigured`
and the SDK calls are **not** wrapped in a try/catch, so their errors
propagate as a rejection (`Except.error`). -/
def getProducts (numToStr : ℚ → String) (env : ProductsEnv) (productIds : List String)
    (s : IAPState) : Except JsError (IAPState × List IAPProduct) :=
  if !s.isNative then .ok (s, [])
  else
    match ensureConfigured env.cfg s with
    | .error e => .error e
    | .ok s' =>
      match env.cfg.sdkImport with
      | .error e => .error e
      | .ok _ =>
        match env.offeringsResult with
        | .error e => .error e
        | .ok offerings =>
          let pkgs := packagesOf offerings
          if pkgs.length = 0 then .ok (s', [])
          else
            .ok (s', productIds.filterMap (fun requestedId =>
              (lookupPkg pkgs requestedId).map (mkIAPProduct numToStr requestedId)))

/-! ## purchase (`part_001` lines 208-262) -/

/-- The `storeTransaction` sub-object of a purchase result. -/
structure StoreTransaction where
  transactionIdentifier : Option String
  orderId : Option String
deriving DecidableEq, Repr

/-- The `transaction` sub-object of a purchase result. -/
structure TransactionObj where
  transactionIdentifier : Option String
deriving DecidableEq, Repr

/-- An entitlement object as read from `customerInfo.entitlements.active`. -/
structure Entitlement where
  productIdentifier : Option String
  expirationDate : Option String
  expiresDate : Option String
deriving DecidableEq, Repr

/-- The `entitlements` sub-object of customer info; `active` is a JS object
modelled as an ordered association list. -/
structure EntitlementsObj where
  active : Option (List (String × Entitlement))
deriving DecidableEq, Repr

/-- Customer info as resolved by `restorePurchases` / `getCustomerInfo`. -/
structure CustomerInfo where
  entitlements : Option EntitlementsObj
  originalPurchaseDate : Option String
deriving DecidableEq, Repr

/-- The raw object resolved by `Purchases.purchasePackage`. -/
structure PurchaseRaw where
  storeTransaction : Option StoreTransaction
  transaction : Option TransactionObj
  transactionIdentifier : Option String
  customerInfo : Option CustomerInfo
deriving DecidableEq, Repr

/-- The opaque `raw` diagnostic payload of a `PurchaseResult`: the SDK
result on success, the thrown error on failure. -/
inductive RawPayload
  | result (r : PurchaseRaw)
  | err (e : JsError)
deriving DecidableEq, Repr

/-- Translation of the `PurchaseResult` interface (`part_001` lines 58-66). -/
structure PurchaseResult where
  success : Bool
  productId : Option String
  transactionId : Option String
  platform : Platform
  raw : Option RawPayload
  error : Option String
deriving DecidableEq, Repr

/-- Environment for `purchase`. -/
structure PurchaseEnv where
  cfg : CfgEnv
  offeringsResult : Except JsError (Option OfferingsObj)
  purchaseOutcome : Except JsError PurchaseRaw
deriving DecidableEq, Repr

/-- The transaction-id extraction chain of `purchase`
(`part_001` lines 236-242), followed by `transactionId ? String(...) :
undefined` (line 247). -/
def rawTransactionId (r : PurchaseRaw) : Option String :=
  let t := jsOr (jsOr (jsOr (jsOr (r.storeTransaction.bind StoreTransaction.transactionIdentifier)
    (r.storeTransaction.bind StoreTransaction.orderId))
    (r.transaction.bind TransactionObj.transactionIdentifier))
    r.transactionIdentifier)
    (r.customerInfo.bind CustomerInfo.originalPurchaseDate)
  if jsTruthy t then t else none

/-- The catch handler of `purchase` (`part_001` lines 251-261): computes
`msg = error?.message || 'Purchase failed'` and
`code = error?.code || error?.errorCode`, normalizes user cancellation,
and otherwise propagates the message and raw error. -/
def purchaseCatch (e : JsError) (platform : Platform) : PurchaseResult :=
  let msg := jsOrD e.message "Purchase failed"
  let code := jsOr e.code e.errorCode
  if code == some "USER_CANCELLED" || containsSubstr (strToLower msg) "cancel" then
    { success := false, productId := none, transactionId := none,
      platform := platform, raw := none, error := some "Purchase cancelled" }
  else
    { success := false, productId := none, transactionId := none,
      platform := platform, raw := some (RawPayload.err e), error := some msg }

/-- The body of the try block of `purchase` (`part_001` lines 216-261),
with the catch handler applied; total, because every error inside the try
is caught. -/
def purchaseTry (env : PurchaseEnv) (productId : String) (s : IAPState) : PurchaseResult :=
  match env.offeringsResult with
  | .error e => purchaseCatch e s.currentPlatform
  | .ok offerings =>
    match (packagesOf offerings).find? (fun p => packagePid p == some productId) with
    | none =>
      { success := false, productId := none, transactionId := none,
        platform := s.currentPlatform, raw := none,
        error := some ("Product not found in RevenueCat Offering: " ++ productId
          ++ ". Check RevenueCat Offering + product IDs.") }
    | some _ =>
      match env.purchaseOutcome with
      | .error e => purchaseCatch e s.currentPlatform
      | .ok result =>
        { success := true, productId := some productId,
          transactionId := rawTransactionId result,
          platform := s.currentPlatform, raw := some (RawPayload.result result),
          error := none }

/-- Translation of `purchase` (`part_001` lines 208-262). The calls to
`ensureConfigured` and `this.sdk()` happen **before** the try block, so
their errors reject the returned promise (`Except.error`). -/
def purchase (env : PurchaseEnv) (productId : String) (s : IAPState) :
    Except JsError (IAPState × PurchaseResult) :=
  if !s.isNative then
    .ok (s, { success := false, productId := none, transactionId := none,
              platform := Platform.web, raw := none,
              error := some "Purchases are only available on mobile devices." })
  else
    match ensureConfigured env.cfg s with
    | .error e => .error e
    | .ok s' =>
      match env.cfg.sdkImport with
      | .error e => .error e
      | .ok _ => .ok (s', purchaseTry env productId s')

/-! ## restorePurchases (`part_001` lines 267-291) -/

/-- Result shape of `restorePurchases`. -/
structure RestoreResult where
  restored : List String
  error : Option String
deriving DecidableEq, Repr

/-- Environment for `restorePurchases`. -/
structure RestoreEnv where
  cfg : CfgEnv
  restoreResult : Except JsError CustomerInfo
deriving DecidableEq, Repr

/-- The `restored` list computed from customer info: iterate
`customerInfo?.entitlements?.active || {}` and push each entitlement's
`productIdentifier` when it is truthy (`part_001` lines 278-287). -/
def restoredOf (ci : CustomerInfo) : List String :=
  ((ci.entitlements.bind EntitlementsObj.active).getD []).filterMap
    (fun kv => if jsTruthy kv.2.productIdentifier then kv.2.productIdentifier else none)

/-- Translation of `restorePurchases` (`part_001` lines 267-291). Here
`ensureConfigured` is **inside** the try block, so every failure resolves
to `{ restored: [], error: message }` — the function is total. -/
def restorePurchases (env : RestoreEnv) (s : IAPState) : IAPState × RestoreResult :=
  if !s.isNative then
    (s, { restored := [], error := some "Restore is only available on mobile devices" })
  else
    match ensureConfigured env.cfg s with
    | .error e => (s, { restored := [], error := some (jsOrD e.message "Failed to restore purchases") })
    | .ok s' =>
      match env.cfg.sdkImport with
      | .error e => (s', { restored := [], error := some (jsOrD e.message "Failed to restore purchases") })
      | .ok _ =>
        match env.restoreResult with
        | .error e => (s', { restored := [], error := some (jsOrD e.message "Failed to restore purchases") })
        | .ok ci => (s', { restored := restoredOf ci, error := none })

/-! ## checkPremiumStatus (`part_001` lines 296-314) -/

/-- Result of `checkPremiumStatus`. -/
structure PremiumStatus where
  isPremium : Bool
  expiresAt : Option String
deriving DecidableEq, Repr

/-- Environment for `checkPremiumStatus`. -/
structure CheckEnv where
  cfg : CfgEnv
  customerInfoResult : Except JsError CustomerInfo
deriving DecidableEq, Repr

/-- Lookup `customerInfo?.entitlements?.active?.premium`. -/
def premiumEntitlementOf (ci : CustomerInfo) : Option Entitlement :=
  (ci.entitlements.bind EntitlementsObj.active).bind (fun l => l.lookup "premium")

/-- Translation of `checkPremiumStatus` (`part_001` lines 296-314). The
whole body is inside a try/catch that resolves to `{ isPremium: false }`,
so the function is total: it never rejects. -/
def checkPremiumStatus (env : CheckEnv) (s : IAPState) : IAPState × PremiumStatus :=
  if !s.isNative then (s, { isPremium := false, expiresAt := none })
  else
    match ensureConfigured env.cfg s with
    | .error _ => (s, { isPremium := false, expiresAt := none })
    | .ok s' =>
      match env.cfg.sdkImport with
      | .error _ => (s', { isPremium := false, expiresAt := none })
      | .ok _ =>
        match env.customerInfoResult with
        | .error _ => (s', { isPremium := false, expiresAt := none })
        | .ok ci =>
          let premiumEntitlement := premiumEntitlementOf ci
          let expiresAtRaw := jsOr (premiumEntitlement.bind Entitlement.expirationDate)
            (premiumEntitlement.bind Entitlement.expiresDate)
          (s', { isPremium := premiumEntitlement.isSome
                 expiresAt := if jsTruthy expiresAtRaw then expiresAtRaw else none })

/-! ## Configuration lifecycle traces (for `setAppUserId` / `ensureConfigured`) -/

/-- An operation on the IAP service's configuration state. -/
inductive IAPOp
  | setUser (uid : Option String)
  | ensureCfg (env : CfgEnv)
deriving DecidableEq, Repr

/-- Whether an operation is a `setAppUserId` call. -/
def IAPOp.isSetUser : IAPOp → Bool
  | .setUser _ => true
  | .ensureCfg _ => false

/-- One step of the configuration lifecycle. The returned number counts
successful `Purchases.configure` invocations in this step (it is `1`
exactly when `ensureConfigured` flips `configured` from `false` to
`true`). A failed `ensureConfigured` leaves the state unchanged. -/
def stepOp (s : IAPState) : IAPOp → IAPState × Nat
  | .setUser uid => (setAppUserId uid s, 0)
  | .ensureCfg env =>
    match ensureConfigured env s with
    | .ok s' => (s', if s'.configured && !s.configured then 1 else 0)
    | .error _ => (s, 0)

/-- Run a sequence of operations, accumulating the configure count. -/
def runOps (s : IAPState) : List IAPOp → IAPState × Nat
  | [] => (s, 0)
  | op :: ops =>
    let p := stepOp s op
    let q := runOps p.1 ops
    (q.1, p.2 + q.2)

/-! ## fetchPremiumStatus (`PremiumContext.tsx` lines 28-78) -/

/-- Abstract interpretation of JS `Date`: `parse` is
`new Date(str).valueOf()` (epoch milliseconds) and `toISO` is
`new Date(ms).toISOString()`. Kept abstract because no claim depends on a
particular calendar encoding; the claims only use `new Date(a) >
new Date()` (as `parse a > now`) and `toISO (parse a)`. -/
structure JsDateModel where
  parse : String → Int
  toISO : Int → String

/-- React state of the `PremiumProvider` touched by `fetchPremiumStatus`. -/
structure PState where
  isPremium : Bool
  isLoading : Bool
deriving DecidableEq, Repr

/-- The `profiles` row fields selected by the web fallback
(`is_premium, premium_expires_at`). -/
structure ProfileRow where
  is_premium : Bool
  premium_expires_at : Option String
deriving DecidableEq, Repr

/-- The payload of the best-effort cache write
(`is_premium`, `premium_expires_at`) sent to the `profiles` row. -/
structure ProfileUpdate where
  is_premium : Bool
  premium_expires_at : Option String
deriving DecidableEq, Repr

/-- Environment for one invocation of `fetchPremiumStatus`: the signed-in
user (if any), the IAP check environment, and the outcomes of the two
Supabase calls. -/
structure FetchEnv where
  user : Option String
  check : CheckEnv
  updateResult : Except JsError Unit
  selectResult : Except JsError (Option ProfileRow)
deriving DecidableEq, Repr

/-- The body of the outer try block of `fetchPremiumStatus`
(`PremiumContext.tsx` lines 35-72), given a signed-in user id. Returns the
updated IAP state, the new `isPremium` value, and the attempted cache
write (if any); `.error` is a thrown exception reaching the outer catch.
The inner try/catch around the Supabase update ignores
`env.updateResult`, so the write is attempted but its failure never
propagates. -/
def fetchPremiumBody (jd : JsDateModel) (now : Int) (env : FetchEnv) (uid : String)
    (iapSt : IAPState) (s : PState) :
    Except JsError (IAPState × Bool × Option ProfileUpdate) :=
  if iapSt.isNative then
    let iapSt1 := setAppUserId (some uid) iapSt
    let r := checkPremiumStatus env.check iapSt1
    let upd : ProfileUpdate :=
      { is_premium := r.2.isPremium
        premium_expires_at :=
          if jsTruthy r.2.expiresAt then
            (r.2.expiresAt.map (fun e => jd.toISO (jd.parse e)))
          else none }
    .ok (r.1, r.2.isPremium, some upd)
  else
    match env.selectResult with
    | .error e => .error e
    | .ok data =>
      match data with
      | some row =>
        let isActive := row.is_premium &&
          (!(jsTruthy row.premium_expires_at) ||
            decide ((jd.parse (row.premium_expires_at.getD "")) > now))
        .ok (iapSt, isActive, none)
      | none => .ok (iapSt, s.isPremium, none)

/-- Translation of `fetchPremiumStatus` (`PremiumContext.tsx` lines
28-78). If no user is signed in, the flag is cleared and loading ends.
Otherwise the body runs under the outer try/catch: a thrown error is
caught (and only logged), leaving `isPremium` at its previous value; the
`finally` block always clears `isLoading`. The function is total: the
caller never observes a rejection. -/
def fetchPremiumStatus (jd : JsDateModel) (now : Int) (env : FetchEnv)
    (iapSt : IAPState) (s : PState) : IAPState × PState × Option ProfileUpdate :=
  match env.user with
  | none => (iapSt, { isPremium := false, isLoading := false }, none)
  | some uid =>
    match fetchPremiumBody jd now env uid iapSt s with
    | .ok (iapSt', p, w) => (iapSt', { isPremium := p, isLoading := false }, w)
    | .error _ => (iapSt, { isPremium := s.isPremium, isLoading := false }, none)

/-! ## Auth handleSubmit (`Auth.tsx` lines 26-58) -/

/-- The two UI modes of the auth form. -/
inductive AuthMode
  | signin
  | signup
deriving DecidableEq, Repr

/-- A toast notification (`title`, `description`). -/
structure Toast where
  title : String
  description : String
deriving DecidableEq, Repr

/-- A remote auth call made during submission. -/
inductive RemoteCall
  | signUpCall (email password : String)
  | signInCall (email password : String)
deriving DecidableEq, Repr

/-- Outcomes of the two remote auth calls. -/
structure AuthEnv where
  signUpResult : Except JsError Unit
  signInResult : Except JsError Unit
deriving DecidableEq, Repr

/-- Observable outcome of one form submission: the resulting mode, the
toasts shown, the remote calls made, and whether navigation to `/`
(with the scheduled reload) happened. -/
structure SubmitOut where
  mode : AuthMode
  toasts : List Toast
  calls : List RemoteCall
  navigated : Bool
deriving DecidableEq, Repr

/-- The toast shown when email or password is missing (`Auth.tsx` line 31). -/
def missingInfoToast : Toast :=
  { title := "Missing info", description := "Please enter an email and password." }

/-- The confirmation toast shown after a successful sign-up
(`Auth.tsx` lines 37-40). -/
def confirmEmailToast : Toast :=
  { title := "Check your email"
    description := "We sent a confirmation email. After confirming, come back and sign in." }

/-- The toast shown when a remote auth call fails (`Auth.tsx` lines
48-54): the error's message if present, otherwise a per-mode fallback. -/
def authFailedToast (e : JsError) (fallback : String) : Toast :=
  { title := "Authentication failed", description := jsOrD e.message fallback }

/-- Translation of `handleSubmit` (`Auth.tsx` lines 26-58). Empty email or
password short-circuits with a toast before any remote call; sign-up
success always shows the confirmation toast and switches to sign-in mode;
any remote error is caught and shown as an "Authentication failed" toast
with the error's message or a per-mode fallback. -/
def handleSubmit (env : AuthEnv) (mode : AuthMode) (email password : String) : SubmitOut :=
  if email == "" || password == "" then
    { mode := mode, toasts := [missingInfoToast], calls := [], navigated := false }
  else
    match mode with
    | .signup =>
      match env.signUpResult with
      | .ok _ =>
        { mode := AuthMode.signin, toasts := [confirmEmailToast],
          calls := [RemoteCall.signUpCall email.trim password], navigated := false }
      | .error e =>
        { mode := mode,
          toasts := [authFailedToast e
            "Could not create your account. Try a different email or a stronger password."],
          calls := [RemoteCall.signUpCall email.trim password], navigated := false }
    | .signin =>
      match env.signInResult with
      | .ok _ =>
        { mode := mode, toasts := [],
          calls := [RemoteCall.signInCall email.trim password], navigated := true }
      | .error e =>
        { mode := mode,
          toasts := [authFailedToast e
            "Could not sign in. Check your email/password and try again."],
          calls := [RemoteCall.signInCall email.trim password], navigated := false }

/-! ## Concrete fixtures used by counterexamples and witnesses -/

/-- A configuration environment in which every SDK call succeeds and a
Google API key is present. -/
def goodCfgEnv : CfgEnv := ⟨⟨some "k", none⟩, .ok (), .ok ()⟩

/-- A configuration environment with no API key set. -/
def noKeyCfgEnv : CfgEnv := ⟨⟨none, none⟩, .ok (), .ok ()⟩

/-- A native (Android) service state before any configuration. -/
def nativeState : IAPState := ⟨true, Platform.google, false, none⟩

/-- A web service state (no native purchase capability). -/
def webState : IAPState := ⟨false, Platform.web, false, none⟩

/-- A concrete JS date interpretation: every string parses to epoch 0. -/
def jdC : JsDateModel := ⟨fun _ => 0, fun _ => "1970-01-01T00:00:00.000Z"⟩

/-- A concrete database error. -/
def dbError : JsError := ⟨some "db down", none, none⟩

/-- Fetch environment for the C1 counterexample: signed-in user on the
web runtime, cache read rejects. -/
def envC1 : FetchEnv := ⟨some "u", ⟨goodCfgEnv, .error dbError⟩, .ok (), .error dbError⟩

/-- Fetch environment for the C2 counterexample: signed-in user on the
web runtime, cache read succeeds but finds no record. -/
def envC2 : FetchEnv := ⟨some "u", ⟨goodCfgEnv, .error dbError⟩, .ok (), .ok none⟩

/-- An active "premium" entitlement expiring on 2099-01-01 (expiry carried
in the `expirationDate` field). -/
def premiumEnt : Entitlement := ⟨some "cozy_premium_monthly", some "2099-01-01", none⟩

/-- Customer info whose active entitlements contain `premiumEnt`. -/
def ciPremium : CustomerInfo := ⟨some ⟨some [("premium", premiumEnt)]⟩, none⟩

/-- The service state after `setAppUserId("u")` followed by a successful
configuration. -/
def cfgState : IAPState := ⟨true, Platform.google, true, some "u"⟩

/-- The service state after a successful configuration with no user id. -/
def cfgStateNoUser : IAPState := ⟨true, Platform.google, true, none⟩

/-- Fetch environment for the C3 scenario: native entitlement check
reports `premiumEnt`, and the advisory cache write fails. -/
def envC3 : FetchEnv := ⟨some "u", ⟨goodCfgEnv, .ok ciPremium⟩, .error dbError, .ok none⟩

/-- Purchase environment for the C4 witness: good configuration, empty
offerings. -/
def envC4 : PurchaseEnv := ⟨goodCfgEnv, .ok none, .error dbError⟩

/-- A package whose product identifier is `cozy_premium_monthly`. -/
def pkgMonthly : RCPackage :=
  ⟨some { RCProduct.empty with identifier := some "cozy_premium_monthly" }, none⟩

/-- Offerings whose current offering contains exactly `pkgMonthly`. -/
def offMonthly : Option OfferingsObj := some ⟨some ⟨some [pkgMonthly]⟩⟩

/-- A purchase error whose message contains "cancel" in mixed case. -/
def cancelError : JsError := ⟨some "The user CANCELled the purchase", none, none⟩

/-- A purchase error unrelated to cancellation. -/
def otherError : JsError := ⟨some "network unreachable", none, none⟩

/-- Purchase environment in which the SDK purchase call rejects with
`cancelError`. -/
def envCancel : PurchaseEnv := ⟨goodCfgEnv, .ok offMonthly, .error cancelError⟩

/-- Purchase environment in which the SDK purchase call rejects with
`otherError`. -/
def envOtherErr : PurchaseEnv := ⟨goodCfgEnv, .ok offMonthly, .error otherError⟩

/-- Customer info for the restore witness: one entitlement with a product
identifier, one without, one with an empty identifier. -/
def ciRestore : CustomerInfo :=
  ⟨some ⟨some [("premium", ⟨some "pid1", none, none⟩),
    ("noid", ⟨none, none, none⟩), ("emptyid", ⟨some "", none, none⟩)]⟩, none⟩

/-- Restore environment whose SDK restore call succeeds with `ciRestore`. -/
def envRestoreOk : RestoreEnv := ⟨goodCfgEnv, .ok ciRestore⟩

/-- Restore environment whose SDK restore call rejects. -/
def envRestoreErr : RestoreEnv := ⟨goodCfgEnv, .error dbError⟩

/-! ## Claim C1 -/

/-- Claim C1, counterexample. The claim says that when an exception is
raised during resolution the resolver resolves the premium flag to
`false`. On the web path with a signed-in user, a cache-read error is
thrown and caught, but the catch block only logs: with the flag
previously `true`, it stays `true`, not `false`. -/
theorem fetch_error_not_fail_closed_cx :
    fetchPremiumBody jdC 100 envC1 "u" webState ⟨true, true⟩ = .error dbError ∧
    fetchPremiumStatus jdC 100 envC1 webState ⟨true, true⟩
      = (webState, ⟨true, false⟩, none) := by
  exact ⟨rfl, rfl⟩

/-- Claim C1, amended: for every invocation of `fetchPremiumStatus` with a
signed-in identity, if an exception is raised during resolution it is
caught and the resolver completes normally (the caller never observes a
rejection, and the loading flag is cleared), with the premium flag left
at its previous value (so it is `false` whenever nothing had set it)
rather than being actively reset to `false`. -/
theorem fetch_exception_caught_flag_unchanged (jd : JsDateModel) (now : Int)
    (env : FetchEnv) (uid : String) (iapSt : IAPState) (s : PState) (e : JsError)
    (hu : env.user = some uid)
    (he : fetchPremiumBody jd now env uid iapSt s = .error e) :
    fetchPremiumStatus jd now env iapSt s = (iapSt, ⟨s.isPremium, false⟩, none) := by
  simp only [fetchPremiumStatus, hu, he]

/-- Claim C1, witness for the amended theorem. -/
theorem fetch_exception_caught_flag_unchanged_witness :
    fetchPremiumStatus jdC 100 envC1 webState ⟨false, true⟩
      = (webState, ⟨false, false⟩, none) :=
  fetch_exception_caught_flag_unchanged jdC 100 envC1 "u" webState ⟨false, true⟩
    dbError rfl rfl

/-! ## Claim C2 -/

/-- Claim C2, counterexample. The claim says that when no cache record
exists, resolution yields "not premium". In the source, the absent-record
branch simply never calls `setIsPremium`, so a previously-true flag stays
`true`. -/
theorem fetch_no_record_keeps_flag_cx :
    envC2.selectResult = .ok none ∧
    fetchPremiumStatus jdC 100 envC2 webState ⟨true, true⟩
      = (webState, ⟨true, false⟩, none) := by
  exact ⟨rfl, rfl⟩

/-- Claim C2, amended: for every identity resolved without native purchase
capability, if a cache record exists the resolver computes premium as
(stored flag is true) AND (no expiry stored OR stored expiry strictly in
the future) — in particular a past expiry yields "not premium" even with
the flag true, and flag true with no expiry yields "premium"; if no cache
record exists, resolution completes without raising an error but leaves
the premium flag unchanged (hence "not premium" only when nothing had
previously set it). -/
theorem fetch_web_fallback_spec (jd : JsDateModel) (now : Int)
    (env : FetchEnv) (uid : String) (iapSt : IAPState) (s : PState)
    (hu : env.user = some uid) (hn : iapSt.isNative = false) :
    (∀ row e, env.selectResult = .ok (some row) → row.premium_expires_at = some e → e ≠ "" →
      fetchPremiumStatus jd now env iapSt s
        = (iapSt, ⟨row.is_premium && decide (jd.parse e > now), false⟩, none)) ∧
    (∀ row, env.selectResult = .ok (some row) → row.premium_expires_at = none →
      fetchPremiumStatus jd now env iapSt s
        = (iapSt, ⟨row.is_premium, false⟩, none)) ∧
    (env.selectResult = .ok none →
      fetchPremiumStatus jd now env iapSt s
        = (iapSt, ⟨s.isPremium, false⟩, none)) := by
  refine ⟨?_, ?_, ?_⟩
  · intro row e hr hexp hne
    have hbe : (e == "") = false := by simpa using hne
    simp only [fetchPremiumStatus, fetchPremiumBody, hu, hn, hr, hexp, jsTruthy,
      Option.getD_some, Bool.false_eq_true, if_false]
    simp [hbe]
  · intro row hr hexp
    simp only [fetchPremiumStatus, fetchPremiumBody, hu, hn, hr, hexp, jsTruthy,
      Bool.false_eq_true, if_false]
    simp
  · intro hr
    simp only [fetchPremiumStatus, fetchPremiumBody, hu, hn, hr, Bool.false_eq_true, if_false]

/-- Claim C2, witness for the amended theorem: a record with a past expiry
and flag true resolves to not-premium. -/
theorem fetch_web_fallback_spec_witness :
    fetchPremiumStatus jdC 100
      ⟨some "u", ⟨goodCfgEnv, .error dbError⟩, .ok (), .ok (some ⟨true, some "2020-01-01"⟩)⟩
      webState ⟨false, true⟩
      = (webState, ⟨false, false⟩, none) := by
  have h := (fetch_web_fallback_spec jdC 100
    ⟨some "u", ⟨goodCfgEnv, .error dbError⟩, .ok (), .ok (some ⟨true, some "2020-01-01"⟩)⟩
    "u" webState ⟨false, true⟩ rfl rfl).1 ⟨true, some "2020-01-01"⟩ "2020-01-01" rfl rfl
    (by decide)
  simpa using h

/-! ## Claim C3 -/

/-- Claim C3: when the native entitlement check reports an active
"premium" entitlement carrying `expirationDate = "2099-01-01"` in either
of the two tolerated field names, `checkPremiumStatus` returns
`{isPremium := true, expiresAt := "2099-01-01"}`, and `fetchPremiumStatus`
then attempts the best-effort cache write with the shape
`{is_premium := true, premium_expires_at := ISO("2099-01-01")}` (the
expiry is normalized through `new Date(...).toISOString()`), while the
outcome is identical for every possible result of that write — its
failure is suppressed and never surfaced to the caller. -/
theorem native_premium_sync_spec (jd : JsDateModel) (now : Int) (env : FetchEnv)
    (uid : String) (iapSt s₂ : IAPState) (s : PState) (ci : CustomerInfo) (ent : Entitlement)
    (hu : env.user = some uid) (hn : iapSt.isNative = true)
    (hc : ensureConfigured env.check.cfg (setAppUserId (some uid) iapSt) = .ok s₂)
    (hs : env.check.cfg.sdkImport = .ok ())
    (hci : env.check.customerInfoResult = .ok ci)
    (hent : premiumEntitlementOf ci = some ent)
    (hexp : ent.expirationDate = some "2099-01-01" ∨
      (ent.expirationDate = none ∧ ent.expiresDate = some "2099-01-01")) :
    checkPremiumStatus env.check (setAppUserId (some uid) iapSt)
      = (s₂, ⟨true, some "2099-01-01"⟩) ∧
    fetchPremiumStatus jd now env iapSt s
      = (s₂, ⟨true, false⟩, some ⟨true, some (jd.toISO (jd.parse "2099-01-01"))⟩) ∧
    (∀ u, fetchPremiumStatus jd now { env with updateResult := u } iapSt s
      = fetchPremiumStatus jd now env iapSt s) := by
  have hnat : (setAppUserId (some uid) iapSt).isNative = true := by
    simp [setAppUserId, hn]
  have hA : checkPremiumStatus env.check (setAppUserId (some uid) iapSt)
      = (s₂, ⟨true, some "2099-01-01"⟩) := by
    simp only [checkPremiumStatus, hnat, Bool.not_true, Bool.false_eq_true, if_false, hc, hs, hci,
      hent]
    rcases hexp with h | ⟨h1, h2⟩
    · simp [jsOr, jsTruthy, h]
    · simp [jsOr, jsTruthy, h1, h2]
  refine ⟨hA, ?_, ?_⟩
  · simp only [fetchPremiumStatus, fetchPremiumBody, hu, hn, if_true, hA]
    simp [jsTruthy]
  · intro u
    obtain ⟨u0, ch, up, se⟩ := env
    rfl

/-- Claim C3, witness: concrete run of the scenario, with a failing
advisory write. -/
theorem native_premium_sync_spec_witness :
    checkPremiumStatus envC3.check (setAppUserId (some "u") nativeState)
      = (cfgState, ⟨true, some "2099-01-01"⟩) ∧
    fetchPremiumStatus jdC 0 envC3 nativeState ⟨false, true⟩
      = (cfgState, ⟨true, false⟩, some ⟨true, some "1970-01-01T00:00:00.000Z"⟩) := by
  have h := native_premium_sync_spec jdC 0 envC3 "u" nativeState cfgState ⟨false, true⟩
    ciPremium premiumEnt rfl rfl rfl rfl rfl rfl (Or.inl rfl)
  exact ⟨h.1, h.2.1⟩

/-! ## Claim C4 -/

/-- Claim C4, counterexample. The claim says `purchase` never raises an
exception to the caller, for every product identifier. But
`ensureConfigured` is called before the try block of `purchase`: on a
native runtime with no RevenueCat API key configured, `purchase` rejects
with the missing-key error instead of returning a `PurchaseResult`. -/
theorem purchase_missing_key_rejects_cx :
    purchase ⟨noKeyCfgEnv, .ok none, .error dbError⟩ "cozy_premium_monthly" nativeState
      = .error (missingKeyError Platform.google) := rfl

/-- Claim C4, amended: provided SDK configuration and the SDK module
load do not fail (in particular on every non-native runtime, where they
are skipped), `purchase` resolves to a `PurchaseOutcome` and never raises
an exception to the caller; and when the requested identifier is not
present in the current default catalog, the outcome is a failure carrying
a descriptive message naming the missing product identifier. -/
theorem purchase_returns_outcome_spec (env : PurchaseEnv) (pid : String) (s s' : IAPState)
    (h1 : ensureConfigured env.cfg s = .ok s') (h2 : env.cfg.sdkImport = .ok ()) :
    (∃ out, purchase env pid s = .ok out) ∧
    (∀ off, s.isNative = true → env.offeringsResult = .ok off →
      (packagesOf off).find? (fun p => packagePid p == some pid) = none →
      purchase env pid s = .ok (s',
        { success := false, productId := none, transactionId := none,
          platform := s'.currentPlatform, raw := none,
          error := some ("Product not found in RevenueCat Offering: " ++ pid
            ++ ". Check RevenueCat Offering + product IDs.") })) := by
  cases hn : s.isNative with
  | false =>
    constructor
    · refine ⟨(s,
        { success := false, productId := none, transactionId := none,
          platform := Platform.web, raw := none,
          error := some "Purchases are only available on mobile devices." }), ?_⟩
      simp [purchase, hn]
    · intro off hnn
      simp at hnn
  | true =>
    have hp : purchase env pid s = .ok (s', purchaseTry env pid s') := by
      simp [purchase, hn, h1, h2]
    constructor
    · exact ⟨_, hp⟩
    · intro off _ hoff hfind
      rw [hp]
      simp [purchaseTry, hoff, hfind]

/-- Claim C4, witness for the amended theorem: with a good configuration
and an empty catalog, the purchase resolves to the descriptive
product-not-found failure. -/
theorem purchase_returns_outcome_spec_witness :
    purchase envC4 "nope" nativeState
      = .ok (cfgStateNoUser,
        { success := false, productId := none, transactionId := none,
          platform := Platform.google, raw := none,
          error := some ("Product not found in RevenueCat Offering: nope. Check RevenueCat Offering + product IDs.") }) := by
  have h := (purchase_returns_outcome_spec envC4 "nope" nativeState cfgStateNoUser
    rfl rfl).2 none rfl rfl rfl
  simpa using h

/-! ## Claim C5 -/

/-- Claim C5, counterexample. The claim says configuration is performed
at most once per identity-association change and invalidated exactly when
the associated identity changes. In the trace below the identity is set
to `"u"` by the first operation and never changes afterwards, yet
`Purchases.configure` runs twice, because `setAppUserId` clears
`configured` unconditionally — also shown directly: calling
`setAppUserId` with the identity already associated still invalidates the
configuration. -/
theorem configure_not_once_per_identity_cx :
    (runOps nativeState [IAPOp.setUser (some "u"), IAPOp.ensureCfg goodCfgEnv,
      IAPOp.setUser (some "u"), IAPOp.ensureCfg goodCfgEnv]).2 = 2 ∧
    (runOps nativeState [IAPOp.setUser (some "u")]).1.appUserId = some "u" ∧
    (runOps nativeState [IAPOp.setUser (some "u"),
      IAPOp.ensureCfg goodCfgEnv]).1.appUserId = some "u" ∧
    (runOps nativeState [IAPOp.setUser (some "u"), IAPOp.ensureCfg goodCfgEnv,
      IAPOp.setUser (some "u")]).1.appUserId = some "u" ∧
    (runOps nativeState [IAPOp.setUser (some "u"), IAPOp.ensureCfg goodCfgEnv,
      IAPOp.setUser (some "u"), IAPOp.ensureCfg goodCfgEnv]).1.appUserId = some "u" ∧
    (setAppUserId (some "u") cfgState).configured = false ∧
    cfgState.appUserId = some "u" ∧
    (setAppUserId (some "u") cfgState).appUserId = some "u" := by
  exact ⟨rfl, rfl, rfl, rfl, rfl, rfl, rfl, rfl⟩

/-- Helper: an `ensureConfigured` step from an already-configured state is
a no-op that performs no configure call. -/
theorem stepOp_ensure_of_configured (s : IAPState) (e : CfgEnv) (h : s.configured = true) :
    stepOp s (IAPOp.ensureCfg e) = (s, 0) := by
  have hc : ensureConfigured e s = .ok s := by
    unfold ensureConfigured
    cases hn : s.isNative <;> simp [h, hn]
  simp [stepOp, hc, h]

/-- Helper: a trace of `ensureConfigured` calls from a configured state
performs no configure call and leaves the state unchanged. -/
theorem runOps_of_configured (ops : List IAPOp) (s : IAPState) (h : s.configured = true)
    (hall : ops.all (fun op => !op.isSetUser) = true) : runOps s ops = (s, 0) := by
  induction ops with
  | nil => rfl
  | cons op ops ih =>
    cases op with
    | setUser uid => simp [IAPOp.isSetUser] at hall
    | ensureCfg e =>
      have hall' : ops.all (fun op => !op.isSetUser) = true := by
        simpa [IAPOp.isSetUser] using hall
      simp [runOps, stepOp_ensure_of_configured s e h, ih hall']

/-- Helper: unfolding of `runOps` on a cons cell. -/
theorem runOps_cons (s : IAPState) (op : IAPOp) (ops : List IAPOp) :
    runOps s (op :: ops) = ((runOps (stepOp s op).1 ops).1,
      (stepOp s op).2 + (runOps (stepOp s op).1 ops).2) := rfl

/-- Helper: one `ensureConfigured` step either performs no configure call
and preserves the `configured` flag, or performs exactly one and leaves
the state configured. -/
theorem stepOp_ensure_count (s : IAPState) (e : CfgEnv) :
    ((stepOp s (IAPOp.ensureCfg e)).2 = 0 ∧
      (stepOp s (IAPOp.ensureCfg e)).1.configured = s.configured) ∨
    ((stepOp s (IAPOp.ensureCfg e)).2 = 1 ∧
      (stepOp s (IAPOp.ensureCfg e)).1.configured = true) := by
  unfold stepOp ensureConfigured
  cases hn : s.isNative with
  | false => simp
  | true =>
    cases hc : s.configured with
    | true => simp [hc]
    | false =>
      by_cases hk : jsTruthy (getApiKey e.keys s)
      · cases hsd : e.sdkImport with
        | error err => simp [hk, hsd, hc]
        | ok u =>
          cases hcf : e.configureResult with
          | error err => simp [hk, hsd, hcf, hc]
          | ok u2 => simp [hk, hsd, hcf, hc]
      · simp [hk, hc]

/-- Claim C5, amended: the configuration is invalidated exactly when
`setAppUserId` is called — even when the newly associated identity equals
the previous one — and between two consecutive `setAppUserId` calls (i.e.
along any trace containing no `setUser` operation) at most one successful
`Purchases.configure` call is performed. -/
theorem configure_invalidation_spec :
    (∀ s uid, (setAppUserId uid s).configured = false) ∧
    (∀ s ops, ops.all (fun op => !op.isSetUser) = true → (runOps s ops).2 ≤ 1) := by
  constructor
  · intro s uid
    rfl
  · intro s ops h
    induction ops generalizing s with
    | nil => simp [runOps]
    | cons op ops ih =>
      cases op with
      | setUser uid => simp [IAPOp.isSetUser] at h
      | ensureCfg e =>
        have hall' : ops.all (fun op => !op.isSetUser) = true := by
          simpa [IAPOp.isSetUser] using h
        rw [runOps_cons]
        rcases stepOp_ensure_count s e with ⟨h0, _⟩ | ⟨h1, hcfg⟩
        · rw [h0]
          simpa using ih _ hall'
        · rw [h1, runOps_of_configured ops _ hcfg hall']
          simp

/-- Claim C5, witness for the amended theorem. -/
theorem configure_invalidation_spec_witness :
    (setAppUserId (some "u") nativeState).configured = false ∧
    (runOps nativeState [IAPOp.ensureCfg goodCfgEnv, IAPOp.ensureCfg goodCfgEnv]).2 ≤ 1 :=
  ⟨configure_invalidation_spec.1 nativeState (some "u"),
   configure_invalidation_spec.2 nativeState
     [IAPOp.ensureCfg goodCfgEnv, IAPOp.ensureCfg goodCfgEnv] (by decide)⟩

/-! ## Claim C6 -/

/-- Claim C6: when the SDK purchase call rejects, if the error's code
(`code || errorCode`) equals `USER_CANCELLED`, or its message contains
"cancel" case-insensitively, the outcome's error is the literal
"Purchase cancelled" rather than the raw SDK message; every other
purchase error yields a failure outcome carrying the original message
and the raw error object. -/
theorem purchase_cancel_normalized_spec (env : PurchaseEnv) (pid : String) (s s' : IAPState)
    (off : Option OfferingsObj) (pkg : RCPackage) (e : JsError)
    (hn : s.isNative = true)
    (h1 : ensureConfigured env.cfg s = .ok s') (h2 : env.cfg.sdkImport = .ok ())
    (h4 : env.offeringsResult = .ok off)
    (h5 : (packagesOf off).find? (fun p => packagePid p == some pid) = some pkg)
    (h6 : env.purchaseOutcome = .error e) :
    ((jsOr e.code e.errorCode = some "USER_CANCELLED" ∨
        containsSubstr (strToLower (jsOrD e.message "Purchase failed")) "cancel" = true) →
      purchase env pid s = .ok (s',
        { success := false, productId := none, transactionId := none,
          platform := s'.currentPlatform, raw := none,
          error := some "Purchase cancelled" })) ∧
    (∀ m, jsOr e.code e.errorCode ≠ some "USER_CANCELLED" →
      e.message = some m → m ≠ "" → containsSubstr (strToLower m) "cancel" = false →
      purchase env pid s = .ok (s',
        { success := false, productId := none, transactionId := none,
          platform := s'.currentPlatform, raw := some (RawPayload.err e),
          error := some m })) := by
  have hp : purchase env pid s = .ok (s', purchaseCatch e s'.currentPlatform) := by
    simp [purchase, hn, h1, h2, purchaseTry, h4, h5, h6]
  constructor
  · intro hcond
    rw [hp]
    rcases hcond with hc | hc
    · simp [purchaseCatch, hc]
    · simp [purchaseCatch, hc]
  · intro m hne hm hm0 hcc
    have hbne : (jsOr e.code e.errorCode == some "USER_CANCELLED") = false := by
      simpa using hne
    have hmsg : jsOrD e.message "Purchase failed" = m := by
      simp [jsOrD, hm, hm0]
    rw [hp]
    simp [purchaseCatch, hbne, hmsg, hcc]

/-- Claim C6, witness: an error whose message contains "CANCELled" is
normalized to "Purchase cancelled", and an unrelated error propagates its
own message and raw payload. -/
theorem purchase_cancel_normalized_spec_witness :
    purchase envCancel "cozy_premium_monthly" nativeState
      = .ok (cfgStateNoUser,
        { success := false, productId := none, transactionId := none,
          platform := Platform.google, raw := none,
          error := some "Purchase cancelled" }) ∧
    purchase envOtherErr "cozy_premium_monthly" nativeState
      = .ok (cfgStateNoUser,
        { success := false, productId := none, transactionId := none,
          platform := Platform.google, raw := some (RawPayload.err otherError),
          error := some "network unreachable" }) := by
  constructor
  · have h := (purchase_cancel_normalized_spec envCancel "cozy_premium_monthly"
      nativeState cfgStateNoUser offMonthly pkgMonthly cancelError
      rfl rfl rfl rfl (by decide) rfl).1 (Or.inr (by decide))
    simpa using h
  · have h := (purchase_cancel_normalized_spec envOtherErr "cozy_premium_monthly"
      nativeState cfgStateNoUser offMonthly pkgMonthly otherError
      rfl rfl rfl rfl (by decide) rfl).2 "network unreachable"
      (by decide) rfl (by decide) (by decide)
    simpa using h

/-! ## Claim C7 -/

/-- Claim C7: on a non-native runtime, purchase, restore and
product-catalog lookup all short-circuit to their defined "unavailable"
outcomes — a failed `PurchaseResult` tagged `web`, an empty restored list
with an error message, and an empty product list — for every possible
environment, so no SDK or network call can influence the result. -/
theorem non_native_short_circuit (penv : PurchaseEnv) (renv : RestoreEnv)
    (genv : ProductsEnv) (numToStr : ℚ → String) (pid : String) (ids : List String)
    (s : IAPState) (h : s.isNative = false) :
    purchase penv pid s = .ok (s,
      { success := false, productId := none, transactionId := none,
        platform := Platform.web, raw := none,
        error := some "Purchases are only available on mobile devices." }) ∧
    restorePurchases renv s = (s,
      { restored := [], error := some "Restore is only available on mobile devices" }) ∧
    getProducts numToStr genv ids s = .ok (s, []) := by
  refine ⟨?_, ?_, ?_⟩ <;> simp [purchase, restorePurchases, getProducts, h]

/-- Claim C7, witness at the concrete web state. -/
theorem non_native_short_circuit_witness :
    purchase envC4 "cozy_premium_monthly" webState = .ok (webState,
      { success := false, productId := none, transactionId := none,
        platform := Platform.web, raw := none,
        error := some "Purchases are only available on mobile devices." }) ∧
    restorePurchases envRestoreOk webState = (webState,
      { restored := [], error := some "Restore is only available on mobile devices" }) ∧
    getProducts (fun _ => "0") ⟨goodCfgEnv, .ok offMonthly⟩ ["cozy_premium_monthly"] webState
      = .ok (webState, []) :=
  non_native_short_circuit envC4 envRestoreOk ⟨goodCfgEnv, .ok offMonthly⟩
    (fun _ => "0") "cozy_premium_monthly" ["cozy_premium_monthly"] webState rfl

/-! ## Claim C8 -/

/-- Claim C8: when the email or the password is the empty string, the
submission is rejected locally — no remote auth call is made, the mode is
unchanged, and the "Missing info" toast is shown. -/
theorem empty_credentials_no_remote_call (env : AuthEnv) (mode : AuthMode)
    (email password : String) (h : email = "" ∨ password = "") :
    handleSubmit env mode email password
      = { mode := mode, toasts := [missingInfoToast], calls := [], navigated := false } := by
  unfold handleSubmit
  rcases h with h | h <;> simp [h]

/-- Claim C8, witness: sign-in with an empty password makes no remote
call and shows the missing-info notification. -/
theorem empty_credentials_no_remote_call_witness :
    handleSubmit ⟨.ok (), .ok ()⟩ AuthMode.signin "a@b.com" ""
      = { mode := AuthMode.signin, toasts := [missingInfoToast],
          calls := [], navigated := false } :=
  empty_credentials_no_remote_call ⟨.ok (), .ok ()⟩ AuthMode.signin "a@b.com" ""
    (Or.inr rfl)

/-! ## Claim C9 -/

/-- Claim C9: on the create-account path, whenever the remote sign-up
call completes successfully, exactly one confirmation-by-email toast is
shown and the UI mode switches from "signup" to "signin"; the outcome is
the same for every successful sign-up result, so it does not depend on
whether the backend requires email confirmation. -/
theorem signup_success_confirmation (env : AuthEnv) (email password : String)
    (h1 : email ≠ "") (h2 : password ≠ "") (h3 : env.signUpResult = .ok ()) :
    handleSubmit env AuthMode.signup email password
      = { mode := AuthMode.signin, toasts := [confirmEmailToast],
          calls := [RemoteCall.signUpCall email.trim password], navigated := false } := by
  have b1 : (email == "") = false := by simpa using h1
  have b2 : (password == "") = false := by simpa using h2
  simp [handleSubmit, b1, b2, h3]

/-- Claim C9, witness: the spec scenario with email `a@b.com` and
password `x`. -/
theorem signup_success_confirmation_witness :
    handleSubmit ⟨.ok (), .ok ()⟩ AuthMode.signup "a@b.com" "x"
      = { mode := AuthMode.signin, toasts := [confirmEmailToast],
          calls := [RemoteCall.signUpCall ("a@b.com".trim) "x"], navigated := false } :=
  signup_success_confirmation ⟨.ok (), .ok ()⟩ "a@b.com" "x"
    (by decide) (by decide) rfl

/-! ## Claim C10 -/

/-- Claim C10: on a native runtime `restorePurchases` never rejects (it
is a total function into `IAPState × RestoreResult`): every SDK failure —
configuration, module import, or the restore call itself — yields
`{restored := [], error := message-or-fallback}`, and on success the
restored list consists exactly of the `productIdentifier` of each active
entitlement that carries a non-empty one, with no error. -/
theorem restore_never_rejects_spec (env : RestoreEnv) (s : IAPState)
    (hn : s.isNative = true) :
    (∀ e, ensureConfigured env.cfg s = .error e →
      restorePurchases env s = (s,
        { restored := [], error := some (jsOrD e.message "Failed to restore purchases") })) ∧
    (∀ s' e, ensureConfigured env.cfg s = .ok s' → env.cfg.sdkImport = .error e →
      restorePurchases env s = (s',
        { restored := [], error := some (jsOrD e.message "Failed to restore purchases") })) ∧
    (∀ s' e, ensureConfigured env.cfg s = .ok s' → env.cfg.sdkImport = .ok () →
      env.restoreResult = .error e →
      restorePurchases env s = (s',
        { restored := [], error := some (jsOrD e.message "Failed to restore purchases") })) ∧
    (∀ s' ci, ensureConfigured env.cfg s = .ok s' → env.cfg.sdkImport = .ok () →
      env.restoreResult = .ok ci →
      restorePurchases env s = (s', { restored := restoredOf ci, error := none }) ∧
      (∀ p, p ∈ restoredOf ci ↔
        ∃ kv ∈ (ci.entitlements.bind EntitlementsObj.active).getD [],
          kv.2.productIdentifier = some p ∧ p ≠ "")) := by
  refine ⟨?_, ?_, ?_, ?_⟩
  · intro e he
    simp [restorePurchases, hn, he]
  · intro s' e hok he
    simp [restorePurchases, hn, hok, he]
  · intro s' e hok hsdk he
    simp [restorePurchases, hn, hok, hsdk, he]
  · intro s' ci hok hsdk hci
    refine ⟨by simp [restorePurchases, hn, hok, hsdk, hci], ?_⟩
    intro p
    simp only [restoredOf, List.mem_filterMap]
    constructor
    · rintro ⟨kv, hkv, hif⟩
      by_cases ht : jsTruthy kv.2.productIdentifier = true
      · rw [if_pos ht] at hif
        refine ⟨kv, hkv, hif, ?_⟩
        rw [hif] at ht
        simpa [jsTruthy] using ht
      · rw [if_neg ht] at hif
        exact absurd hif (by simp)
    · rintro ⟨kv, hkv, hid, hp⟩
      refine ⟨kv, hkv, ?_⟩
      have : jsTruthy kv.2.productIdentifier = true := by
        simp [jsTruthy, hid, hp]
      rw [if_pos this]
      exact hid

/-- Claim C10, witness: a successful restore with three active
entitlements keeps exactly the non-empty product identifier, and a failed
restore yields the empty list with the error's message. -/
theorem restore_never_rejects_spec_witness :
    restorePurchases envRestoreOk nativeState
      = (cfgStateNoUser, { restored := ["pid1"], error := none }) ∧
    restorePurchases envRestoreErr nativeState
      = (cfgStateNoUser, { restored := [], error := some "db down" }) := by
  constructor
  · have h := ((restore_never_rejects_spec envRestoreOk nativeState rfl).2.2.2
      cfgStateNoUser ciRestore rfl rfl rfl).1
    simpa using h
  · have h := (restore_never_rejects_spec envRestoreErr nativeState rfl).2.2.1
      cfgStateNoUser dbError rfl rfl rfl
    simpa using h

end HabitsGPT
